import Mathlib

/-
  Verification of the AutoForwardX relay core against its specification.

  Shallow embedding of the content sanitizers, trap detectors, edit
  trackers, message-mapping delete handler and rate limiter of the
  repository.  Text is modelled as `List Char` (Python `str`), time and
  confidences as `ℚ`, dictionaries as functions or association lists.
  The concrete regular expressions appearing in the default
  configurations are hand-compiled into executable matchers; each
  matcher carries a comment naming the pattern it implements.  Python
  character classes are modelled on the character sets exercised here:
  `\s` as the ASCII whitespace set, `\w` as ASCII alphanumerics plus
  underscore plus the two non-ASCII letters that occur in the embedded
  patterns (Python treats them as word characters).

  Convention: the left-to-right regex-sub scanners recurse on an
  explicit fuel argument so that they are structurally recursive and
  evaluate inside the kernel.  Every scan step consumes at least one
  input character, so the wrapper passing the input length as fuel never
  reaches the fuel-exhausted case (which returns the rest unchanged).
-/

namespace AutoForwardX

/-- Characters of a string, Python str as a list of code points. -/
def chars (s : String) : List Char := s.toList

/-- Python regex class backslash-s restricted to ASCII whitespace. -/
def pyWs (c : Char) : Bool :=
  c = ' ' || c = '\t' || c = '\n' || c = '\r' || c = '\x0b' || c = '\x0c'

/-- Python regex class backslash-w: ASCII alphanumerics and underscore, plus
the two non-ASCII letters U+00F0 and U+0178 that occur in the repository
default configuration (Python treats letters as word characters). -/
def pyWord (c : Char) : Bool :=
  c.isAlphanum || c = '_' || c = 'ð' || c = 'Ÿ'

/-- ASCII lower casing, Python str.lower restricted to the ASCII inputs
used throughout (non-ASCII characters are kept unchanged). -/
def lowerChar (c : Char) : Char := c.toLower

/-- Lower-case every character. -/
def lowerList (cs : List Char) : List Char := cs.map lowerChar

/-- Python str.strip: remove leading and trailing whitespace. -/
def pyStrip (cs : List Char) : List Char :=
  ((cs.dropWhile pyWs).reverse.dropWhile pyWs).reverse

/-- Whether `pat` is a prefix of `cs` (character-exact). -/
def listStarts : List Char → List Char → Bool
  | [], _ => true
  | _ :: _, [] => false
  | p :: ps, c :: cs => p = c && listStarts ps cs

/-- Case-insensitive prefix test. -/
def startsCI (pat cs : List Char) : Bool :=
  listStarts (lowerList pat) (lowerList cs)

/-- Python substring test `pat in cs` (character-exact). -/
def containsList (pat : List Char) : List Char → Bool
  | [] => pat.isEmpty
  | c :: rest => listStarts pat (c :: rest) || containsList pat rest

/-- Case-insensitive substring test. -/
def containsCI (pat cs : List Char) : Bool :=
  containsList (lowerList pat) (lowerList cs)

/-- Python str.split on a newline: always at least one (possibly empty) line. -/
def splitOnNl (cs : List Char) : List (List Char) :=
  cs.foldr
    (fun c acc =>
      match acc with
      | [] => [[c]]
      | a :: as => if c = '\n' then [] :: a :: as else (c :: a) :: as)
    [[]]

/-- Join lines with newlines, inverse of `splitOnNl`. -/
def joinNl (ls : List (List Char)) : List Char :=
  List.intercalate ['\n'] ls

/-- Fueled scanner for `collapseClassGe` below. -/
def collapseClassGo (p : Char → Bool) (k : Nat) (repl : List Char) :
    Nat → List Char → List Char
  | 0, cs => cs
  | _, [] => []
  | fuel + 1, c :: rest =>
    if p c then
      (if k ≤ (rest.takeWhile p).length + 1 then repl else c :: rest.takeWhile p)
        ++ collapseClassGo p k repl fuel (rest.dropWhile p)
    else c :: collapseClassGo p k repl fuel rest

/-- Regex sub of a run of at least `k` characters satisfying `p` by `repl`
(shorter runs are kept verbatim); used for the spam and fingerprint
collapses such as repeated punctuation runs. -/
def collapseClassGe (p : Char → Bool) (k : Nat) (repl : List Char)
    (cs : List Char) : List Char :=
  collapseClassGo p k repl cs.length cs

/-- Run collapse for a single repeated character. -/
def collapseRunGe (c : Char) (k : Nat) (repl : List Char) : List Char → List Char :=
  collapseClassGe (fun x => x = c) k repl

/-- Fueled scanner for `collapseWsAll` below. -/
def collapseWsGo : Nat → List Char → List Char
  | 0, cs => cs
  | _, [] => []
  | fuel + 1, c :: rest =>
    if pyWs c then ' ' :: collapseWsGo fuel (rest.dropWhile pyWs)
    else c :: collapseWsGo fuel rest

/-- Regex sub of backslash-s-plus by a single space, as in the mention
cleanup step of the message cleaner. -/
def collapseWsAll (cs : List Char) : List Char :=
  collapseWsGo cs.length cs

/-- Regex sub removing every occurrence of the mention pattern at-sign
followed by one or more word characters (discord_bot MessageCleaner and
the copier MessageProcessor both use this sub).  The scan is written
with a flag recording that a matched mention word-run is being
consumed. -/
def subMentionGo : Bool → List Char → List Char
  | _, [] => []
  | inMention, c :: rest =>
    if inMention && pyWord c then subMentionGo true rest
    else if c = '@' && (match rest with | d :: _ => pyWord d | [] => false) then
      subMentionGo true rest
    else c :: subMentionGo false rest

/-- Remove all mentions matching at-sign backslash-w-plus. -/
def subMention (cs : List Char) : List Char := subMentionGo false cs

/-- Fueled scanner for `subLiteralCI` below. -/
def subLiteralCIGo (pat : List Char) : Nat → List Char → List Char
  | 0, cs => cs
  | _, [] => []
  | fuel + 1, c :: rest =>
    if pat ≠ [] ∧ startsCI pat (c :: rest) = true then
      subLiteralCIGo pat fuel (rest.drop (pat.length - 1))
    else c :: subLiteralCIGo pat fuel rest

/-- Case-insensitive literal removal sub, for the literal mention
patterns such as at-everyone and at-here. -/
def subLiteralCI (pat cs : List Char) : List Char :=
  subLiteralCIGo pat cs.length cs

/-
  MessageCleaner (src/discord_bot.py, class MessageCleaner) with its
  default configuration from get_default_config.  The default config in
  discord_bot.py stores the fire emoji in a double-encoded (mojibake)
  form: the pattern strings contain the four characters U+00F0 U+0178
  U+201D U+00A5, and the code matches exactly those characters.  The
  matchers below hand-compile each default pattern.
-/

/-- Word-boundary test at the point just after a matched prefix:
`prevWord` is the wordness of the last prefix character, the list is the
remaining text (end of string counts as a non-word position). -/
def boundaryAfter (prevWord : Bool) : List Char → Bool
  | [] => prevWord
  | d :: _ => prevWord != pyWord d

namespace Cleaner

/-- Step 2 of clean_discord_message: sub each of the default mention
patterns then collapse whitespace runs to single spaces and strip. -/
def remove_mentions (cs : List Char) : List Char :=
  pyStrip (collapseWsAll
    (subLiteralCI (chars ("@here"))
      (subLiteralCI (chars ("@everyone")) (subMention cs))))

/-- Default header pattern one: caret hash backslash-w-plus, matched
with re.match against the stripped line. -/
def headerPat1 : List Char → Bool
  | '#' :: d :: _ => pyWord d
  | _ => false

/-- The four mojibake characters that discord_bot.py stores for the fire
emoji in its default header and spam patterns. -/
def fireMoji : List Char := ['ð', 'Ÿ', '”', '¥']

/-- Default header pattern two: caret, alternation of VIP, the mojibake
fire sequence, and ENTRY, then a word boundary (IGNORECASE). -/
def headerPat2 (l : List Char) : Bool :=
  (startsCI (chars ("vip")) l && boundaryAfter true (l.drop 3)) ||
  (listStarts fireMoji l && boundaryAfter false (l.drop 4)) ||
  (startsCI (chars ("entry")) l && boundaryAfter true (l.drop 5))

/-- Default header pattern three: at least two stars, anything, at least
two stars, anchored at both ends: equivalently the line starts and ends
with two stars and has length at least four. -/
def headerPat3 (l : List Char) : Bool :=
  decide (4 ≤ l.length) && listStarts (chars ("**")) l
    && listStarts (chars ("**")) l.reverse

/-- A stripped line matches some default header pattern. -/
def header_match (l : List Char) : Bool :=
  headerPat1 l || headerPat2 l || headerPat3 l

/-- Default footer patterns, each applied with re.search to the stripped
line, reduce to case-insensitive substring tests for their literal parts
(the trailing dot-star matches anything including the empty string). -/
def footer_match (l : List Char) : Bool :=
  containsCI (chars ("shared by ")) l || containsCI (chars ("autocopy")) l
    || containsCI (chars ("join ")) l

/-- Header-removal loop of remove_header_patterns: pop leading blank
lines, pop leading lines matching a header pattern, stop at the first
non-matching non-blank line.  The default header pattern list is
non-empty so the loop guard on the pattern list is always true. -/
def dropHeaderLines : List (List Char) → List (List Char)
  | [] => []
  | l :: ls =>
    if (pyStrip l).isEmpty then dropHeaderLines ls
    else if header_match (pyStrip l) then dropHeaderLines ls
    else l :: ls

/-- Footer-removal loop of remove_footer_patterns, same shape from the
end of the line list (here written on the reversed list). -/
def dropFooterRev : List (List Char) → List (List Char)
  | [] => []
  | l :: ls =>
    if (pyStrip l).isEmpty then dropFooterRev ls
    else if footer_match (pyStrip l) then dropFooterRev ls
    else l :: ls

/-- Remove trailing blank lines and trailing footer-matching lines. -/
def dropFooterLines (ls : List (List Char)) : List (List Char) :=
  (dropFooterRev ls.reverse).reverse

/-- Fueled scanner for the mojibake fire spam sub below. -/
def subFireGo : Nat → List Char → List Char
  | 0, cs => cs
  | _, [] => []
  | fuel + 1, c :: rest =>
    match c, rest with
    | 'ð', 'Ÿ' :: '”' :: rest2 =>
      if 3 ≤ (rest2.takeWhile (fun x => x = '¥')).length then
        fireMoji ++ subFireGo fuel (rest2.dropWhile (fun x => x = '¥'))
      else 'ð' :: subFireGo fuel ('Ÿ' :: '”' :: rest2)
    | _, _ => c :: subFireGo fuel rest

/-- Spam sub for the mojibake fire pattern: the three characters U+00F0
U+0178 U+201D followed by a run of at least three U+00A5, replaced by the
single four-character mojibake sequence. -/
def subFire (cs : List Char) : List Char := subFireGo cs.length cs

/-- Step 5 of clean_discord_message: the four default spam patterns in
list order (fire run of three or more, bangs, question marks, runs of
four or more dots to an ellipsis). -/
def spam_clean (cs : List Char) : List Char :=
  collapseRunGe '.' 4 (chars ("..."))
    (collapseRunGe '?' 3 ['?']
      (collapseRunGe '!' 3 ['!'] (subFire cs)))

/-- Split a whitespace run at its last newline: returns the part before
the last newline and the part after it, or none when no newline. -/
def splitAtLastNl : List Char → Option (List Char × List Char)
  | [] => none
  | c :: rest =>
    match splitAtLastNl rest with
    | some (a, b) => some (c :: a, b)
    | none => if c = '\n' then some ([], rest) else none

/-- Whether a list is non-empty and ends with a newline. -/
def lastCharIsNl (l : List Char) : Bool :=
  match l.getLast? with
  | some d => d = '\n'
  | none => false

/-- Fueled scanner for `trimRe` below. -/
def trimReGo : Nat → Bool → List Char → List Char
  | 0, _, cs => cs
  | _, _, [] => []
  | fuel + 1, atStart, c :: rest =>
    if pyWs c then
      let runTail := rest.takeWhile pyWs
      if atStart then
        trimReGo fuel (lastCharIsNl (c :: runTail)) (rest.drop runTail.length)
      else if (rest.dropWhile pyWs).isEmpty then []
      else
        match splitAtLastNl runTail with
        | some (a, _) => trimReGo fuel (lastCharIsNl (c :: a)) (rest.drop a.length)
        | none => c :: trimReGo fuel (c = '\n') rest
    else c :: trimReGo fuel false rest

/-- Regex sub deleting the MULTILINE pattern caret backslash-s-plus or
backslash-s-plus dollar: the scan walks the text left to right with the
line-start flag; at a whitespace character at a line start the whole
whitespace run is deleted; otherwise the run up to its last interior
newline is deleted (the backtracked dollar position), or up to the end
of the string when nothing follows; when no match starts here, one
character is emitted and the scan advances. -/
def trimRe (cs : List Char) : List Char := trimReGo cs.length true cs

/-- Fueled scanner for `subNlCollapse` below. -/
def subNlCollapseGo (minNl : Nat) : Nat → List Char → List Char
  | 0, cs => cs
  | _, [] => []
  | fuel + 1, c :: rest =>
    if c = '\n' then
      let run := c :: rest.takeWhile pyWs
      if minNl ≤ run.countP (fun x => x = '\n') then
        ('\n' :: '\n' :: (run.reverse.takeWhile (fun x => x != '\n')).reverse)
          ++ subNlCollapseGo minNl fuel (rest.dropWhile pyWs)
      else run ++ subNlCollapseGo minNl fuel (rest.dropWhile pyWs)
    else c :: subNlCollapseGo minNl fuel rest

/-- Regex sub collapsing, inside any maximal whitespace run that carries
at least `minNl` newlines, the stretch from its first to its last
newline into exactly two newlines (whitespace before the first and
after the last newline is kept).  With `minNl` three this is the
cleaner pattern newline ws-star newline ws-star newline-plus, with two
the copier pattern newline ws-star newline; both replace by two
newlines. -/
def subNlCollapse (minNl : Nat) (cs : List Char) : List Char :=
  subNlCollapseGo minNl cs.length cs

/-- Step 6 of clean_discord_message, normalize_formatting: collapse
space runs, collapse runs of three or more newlines with interleaved
whitespace to two newlines, trim every line (the MULTILINE sub above)
and strip. -/
def normalize_formatting (cs : List Char) : List Char :=
  pyStrip (trimRe (subNlCollapse 3 (collapseRunGe ' ' 2 [' '] cs)))

/-- Steps 2 to 7 of clean_discord_message: the text transformations in
source order (the default configuration has no trap_text_patterns, so
step 7 only strips). -/
def clean_pipeline (cs : List Char) : List Char :=
  pyStrip (normalize_formatting (spam_clean (joinNl (dropFooterLines
    (dropHeaderLines (splitOnNl (remove_mentions cs)))))))

/-- Degenerate cleaned texts flagged by the final validation step. -/
def degenerateTexts : List (List Char) :=
  [chars ("..."), chars (".."), chars ("."), chars ("edit"), chars ("deleted")]

/-- clean_discord_message without a message id (no edit tracking): empty
or whitespace-only input returns the empty string unflagged; otherwise
the pipeline runs, the result is flagged as a trap when shorter than
three characters or equal to a degenerate token, and truncated to the
default max_message_length of 4000 plus an ellipsis when longer. -/
def clean_discord_message (cs : List Char) : List Char × Bool :=
  if (pyStrip cs).isEmpty then ([], false)
  else
    let t := clean_pipeline cs
    let isTrap := decide (t.length < 3) || degenerateTexts.contains (lowerList t)
    (if 4000 < t.length then t.take 4000 ++ chars ("...") else t, isTrap)

/-- clean_discord_message on an optional text: Python None is falsy, so
a None input takes the same early return as the empty string. -/
def clean_discord_message_opt : Option (List Char) → List Char × Bool
  | none => ([], false)
  | some s => clean_discord_message s

end Cleaner

/-
  StealthEngine (src/stealth_engine.py) with its default configuration:
  fingerprint normalization with punctuation, emoji, stylized-trap and
  whitespace normalization all enabled and preserve_formatting true.
-/

namespace Stealth

/-- The five invisible characters removed by the stealth engine:
zero-width space, zero-width non-joiner, zero-width joiner, word
joiner and the byte-order mark. -/
def invisibleChars : List Char :=
  ['\u200B', '\u200C', '\u200D', '\u2060', '\uFEFF']

/-- Step 1 of normalize_message_fingerprint: remove zero-width characters. -/
def removeZeroWidth (cs : List Char) : List Char :=
  cs.filter (fun c => !(invisibleChars.contains c))

/-- Step 2: collapse repeated punctuation (bang and question runs of two
or more to one, dot runs of three or more to an ellipsis, comma and
semicolon runs of two or more to one), in source order. -/
def punct_normalize (cs : List Char) : List Char :=
  collapseRunGe ';' 2 [';']
    (collapseRunGe ',' 2 [',']
      (collapseRunGe '.' 3 (chars ("..."))
        (collapseRunGe '?' 2 ['?']
          (collapseRunGe '!' 2 ['!'] cs))))

/-- The ten emoji whose runs of two or more are collapsed in step 3, in
source order. -/
def emojiList : List Char := ['🔥', '💯', '⚡', '🚀', '💰', '📈', '📊', '⭐', '✅', '❌']

/-- Step 3: collapse emoji spam runs. -/
def emoji_normalize (cs : List Char) : List Char :=
  emojiList.foldl (fun acc e => collapseRunGe e 2 [e] acc) cs

/-- Backtracking tail of the decorative-wrapper pattern after the lazy
group: greedy ws-star (longest first) then a closing delimiter run of at
least `k`, returning the consumed length. -/
def wrapFinish (d : Char) (k : Nat) (rest3 : List Char) : Option Nat :=
  (List.range ((rest3.takeWhile pyWs).length + 1)).reverse.findSome? (fun c =>
    let rest4 := rest3.drop c
    let dd := (rest4.takeWhile (fun x => x = d)).length
    if k ≤ dd then some (c + dd) else none)

/-- Lazy dot-plus group of the wrapper pattern: grow the group one
non-newline character at a time (shortest first) until the pattern tail
matches; returns the group and the consumed length. -/
def wrapLazy (d : Char) (k : Nat) (acc : List Char) : List Char → Option (List Char × Nat)
  | [] => none
  | c :: rest =>
    if c = '\n' then none
    else
      match wrapFinish d k rest with
      | some m => some (acc ++ [c], acc.length + 1 + m)
      | none => wrapLazy d k (acc ++ [c]) rest

/-- Match of the decorative-wrapper pattern delimiter-run ws-star lazy
group ws-star delimiter-run at the head of the text, with the regex
backtracking priorities (greedy runs longest first, lazy group shortest
first); returns the captured group and the match length. -/
def wrapMatchAt (d : Char) (k : Nat) (cs : List Char) : Option (List Char × Nat) :=
  let r := (cs.takeWhile (fun x => x = d)).length
  if r < k then none
  else
    ((List.range (r + 1 - k)).map (fun i => r - i)).findSome? (fun a =>
      let rest1 := cs.drop a
      (List.range ((rest1.takeWhile pyWs).length + 1)).reverse.findSome? (fun b =>
        (wrapLazy d k [] (rest1.drop b)).map (fun gm => (gm.1, a + b + gm.2))))

/-- Fueled scanner for `wrapScan` below. -/
def wrapScanGo (d : Char) (k : Nat) : Nat → List Char → List Char
  | 0, cs => cs
  | _, [] => []
  | fuel + 1, c :: rest =>
    match wrapMatchAt d k (c :: rest) with
    | some gm =>
      if gm.2 = 0 then c :: wrapScanGo d k fuel rest
      else gm.1 ++ wrapScanGo d k fuel (rest.drop (gm.2 - 1))
    | none => c :: wrapScanGo d k fuel rest

/-- Regex sub replacing each decorative wrapper (a run of at least `k`
delimiters, optional whitespace, a lazy group, optional whitespace, a
closing run of at least `k` delimiters) by its group, scanning left to
right over non-overlapping matches. -/
def wrapScan (d : Char) (k : Nat) (cs : List Char) : List Char :=
  wrapScanGo d k cs.length cs

/-- Step 4: the six stylized-trap wrapper patterns in source order
(stars, equals, dashes and hashes with runs of three or more, the two
box/bullet characters with runs of two or more). -/
def stylized_normalize (cs : List Char) : List Char :=
  wrapScan '•' 2 (wrapScan '▪' 2 (wrapScan '#' 3 (wrapScan '-' 3
    (wrapScan '=' 3 (wrapScan '*' 3 cs)))))

/-- Step 5 with preserve_formatting: space and tab runs of two or more
to one space, newline runs of three or more to two newlines. -/
def ws_preserve (cs : List Char) : List Char :=
  collapseRunGe '\n' 3 (chars ("\n\n"))
    (collapseClassGe (fun c => c = ' ' || c = '\t') 2 [' '] cs)

/-- First alternative of an alternation of case-insensitive literal
prefixes, returning the matched length. -/
def altCIPrefix (alts : List (List Char)) (cs : List Char) : Option Nat :=
  alts.findSome? (fun a => if startsCI a cs then some a.length else none)

/-- Wordness of the last character of a list, with a default. -/
def lastWordness (l : List Char) (dflt : Bool) : Bool :=
  match l.getLast? with
  | some x => pyWord x
  | none => dflt

/-- Fueled generic regex-sub scanner that deletes matches while
tracking the wordness of the previous character (for word-boundary
anchors evaluated on the original string).  The matcher receives the
previous-character wordness and the remaining text and returns the
match length. -/
def subScanPWGo (m : Bool → List Char → Option Nat) :
    Nat → Bool → List Char → List Char
  | 0, _, cs => cs
  | _, _, [] => []
  | fuel + 1, prevWord, c :: rest =>
    match m prevWord (c :: rest) with
    | some len =>
      if len = 0 then c :: subScanPWGo m fuel (pyWord c) rest
      else subScanPWGo m fuel (lastWordness ((c :: rest).take len) prevWord)
        (rest.drop (len - 1))
    | none => c :: subScanPWGo m fuel (pyWord c) rest

/-- Run a boundary-tracking deletion sub over a whole text (string
start counts as a non-word position). -/
def subScanPW (m : Bool → List Char → Option Nat) (cs : List Char) : List Char :=
  subScanPWGo m cs.length false cs

/-- Trap indicator one: boundary, alternation VIP PREMIUM EXCLUSIVE,
whitespace-plus, alternation SIGNAL ENTRY ALERT, boundary (IGNORECASE).
The whitespace-plus run is maximal since the second alternation starts
with a non-whitespace character. -/
def mTrapVip (prevWord : Bool) (cs : List Char) : Option Nat :=
  if prevWord then none
  else
    match altCIPrefix [chars ("vip"), chars ("premium"), chars ("exclusive")] cs with
    | none => none
    | some m1 =>
      let rest1 := cs.drop m1
      let w := (rest1.takeWhile pyWs).length
      if w = 0 then none
      else
        match altCIPrefix [chars ("signal"), chars ("entry"), chars ("alert")] (rest1.drop w) with
        | none => none
        | some m2 =>
          if boundaryAfter true ((rest1.drop w).drop m2) then some (m1 + w + m2)
          else none

/-- Trap indicator two: boundary, SHARED or FORWARDED, whitespace-plus,
BY, boundary, then dot-star to the end of the line (IGNORECASE,
MULTILINE). -/
def mSharedBy (prevWord : Bool) (cs : List Char) : Option Nat :=
  if prevWord then none
  else
    match altCIPrefix [chars ("shared"), chars ("forwarded")] cs with
    | none => none
    | some m1 =>
      let rest1 := cs.drop m1
      let w := (rest1.takeWhile pyWs).length
      if w = 0 then none
      else
        let rest2 := rest1.drop w
        if startsCI (chars ("by")) rest2 && boundaryAfter true (rest2.drop 2) then
          some (m1 + w + 2 + ((rest2.drop 2).takeWhile (fun x => x != '\n')).length)
        else none

/-- Trap indicator three: boundary, AUTO BOT or COPY, whitespace-plus,
TRADING SIGNAL or BOT, boundary, dot-star to the end of the line. -/
def mAutoTrading (prevWord : Bool) (cs : List Char) : Option Nat :=
  if prevWord then none
  else
    match altCIPrefix [chars ("auto"), chars ("bot"), chars ("copy")] cs with
    | none => none
    | some m1 =>
      let rest1 := cs.drop m1
      let w := (rest1.takeWhile pyWs).length
      if w = 0 then none
      else
        match altCIPrefix [chars ("trading"), chars ("signal"), chars ("bot")] (rest1.drop w) with
        | none => none
        | some m2 =>
          let rest3 := (rest1.drop w).drop m2
          if boundaryAfter true rest3 then
            some (m1 + w + m2 + (rest3.takeWhile (fun x => x != '\n')).length)
          else none

/-- Trap indicator four: boundary, v, digits, dot, digits, boundary at
the end of a line (the version tag pattern). -/
def mVersionTag (prevWord : Bool) (cs : List Char) : Option Nat :=
  if prevWord then none
  else
    match cs with
    | [] => none
    | v :: rest =>
      if v = 'v' || v = 'V' then
        let d1 := (rest.takeWhile Char.isDigit).length
        if d1 = 0 then none
        else
          match rest.drop d1 with
          | '.' :: rest2 =>
            let d2 := (rest2.takeWhile Char.isDigit).length
            if d2 = 0 then none
            else
              match rest2.drop d2 with
              | [] => some (1 + d1 + 1 + d2)
              | '\n' :: _ => some (1 + d1 + 1 + d2)
              | _ => none
          | _ => none
      else none

/-- Trap indicator five: boundary, CHANNEL or GROUP, ws-star, colon,
ws-star, at-sign, word-run, boundary. -/
def mChannelAt (prevWord : Bool) (cs : List Char) : Option Nat :=
  if prevWord then none
  else
    match altCIPrefix [chars ("channel"), chars ("group")] cs with
    | none => none
    | some m1 =>
      let rest1 := cs.drop m1
      let w1 := (rest1.takeWhile pyWs).length
      match rest1.drop w1 with
      | ':' :: rest2 =>
        let w2 := (rest2.takeWhile pyWs).length
        match rest2.drop w2 with
        | '@' :: rest3 =>
          let wd := (rest3.takeWhile pyWord).length
          if wd = 0 then none else some (m1 + w1 + 1 + w2 + 1 + wd)
        | _ => none
      | _ => none

/-- Step 6: the five trap indicator subs in source order. -/
def trap_indicators (cs : List Char) : List Char :=
  subScanPW mChannelAt (subScanPW mVersionTag (subScanPW mAutoTrading
    (subScanPW mSharedBy (subScanPW mTrapVip cs))))

/-- normalize_message_fingerprint with the default configuration: the
empty text is returned unchanged; otherwise zero-width removal,
punctuation, emoji, stylized and whitespace normalization and trap
indicator removal run in order and the result is stripped. -/
def normalize_message_fingerprint (cs : List Char) : List Char :=
  if cs.isEmpty then cs
  else
    pyStrip (trap_indicators (ws_preserve (stylized_normalize
      (emoji_normalize (punct_normalize (removeZeroWidth cs))))))

end Stealth

/-
  Telegram-to-Telegram copier
  (src/telegram_copier/copier_multi_session.py): TrapDetector,
  MessageProcessor.strip_custom_header_footer and the edit and delete
  event handlers of MultiSessionCopier.
-/

namespace Copier

/-- A configured text or line pattern: `compiled` carries the matcher of
a pattern string that re.compile accepts (for headers the anchored
re.match test on the stripped line, for footers and blocklists the
re.search test); `invalid` is a pattern string that raises re.error, for
which the code falls back to a substring test. -/
inductive LinePattern where
  | compiled (raw : List Char) (f : List Char → Bool)
  | invalid (raw : List Char)

/-- Header and footer test on one line of strip_custom_header_footer: a
compiled pattern is applied to the stripped line, an invalid pattern
falls back to a case-insensitive substring test on the whole line. -/
def patternHit (line : List Char) : LinePattern → Bool
  | .compiled _ f => f (pyStrip line)
  | .invalid raw => containsCI raw line

/-- StripRules of the copier: mention removal flag, header patterns,
footer patterns. -/
structure StripRules where
  removeMentions : Bool
  headerPatterns : List LinePattern
  footerPatterns : List LinePattern

/-- A non-blank line is skipped when a header pattern matches or a
footer pattern matches (the code checks headers first and footers only
when no header hit, which produces the same skip decision). -/
def line_skipped (rules : StripRules) (line : List Char) : Bool :=
  rules.headerPatterns.any (patternHit line)
    || rules.footerPatterns.any (patternHit line)

/-- The lines kept by the per-line loop of strip_custom_header_footer:
blank lines are always kept, other lines are kept unless skipped. -/
def kept_lines (rules : StripRules) (text : List Char) : List (List Char) :=
  (splitOnNl text).filter
    (fun l => (pyStrip l).isEmpty || !(line_skipped rules l))

/-- strip_custom_header_footer: empty text is returned unchanged;
otherwise the kept lines are joined, mentions are removed when
configured, whitespace-only blank sequences between newlines collapse
to one blank line, and the result is stripped. -/
def strip_custom_header_footer (rules : StripRules) (text : List Char) : List Char :=
  if text.isEmpty then text
  else
    let r1 := joinNl (kept_lines rules text)
    let r2 := if rules.removeMentions then subMention r1 else r1
    pyStrip (Cleaner.subNlCollapse 2 r2)

/-- TrapDetector.is_text_trap of the copier: empty text is never a
trap; otherwise each blocklist pattern is tried as a lower-cased regex
search on the lower-cased stripped text, an invalid pattern falling
back to a substring test; any hit is a trap. -/
def is_text_trap (patterns : List LinePattern) (text : List Char) : Bool :=
  if text.isEmpty then false
  else
    let tl := pyStrip (lowerList text)
    patterns.any (fun p =>
      match p with
      | .compiled _ f => f tl
      | .invalid raw => containsList (lowerList raw) tl)

/-- TrapDetector edit counts of the copier (dict int to int). -/
structure TrapDetector where
  edit_counts : Nat → Nat

/-- A fresh copier TrapDetector. -/
def initDetector : TrapDetector := ⟨fun _ => 0⟩

/-- TrapDetector.is_edit_trap with the default increment: the count of
the message is incremented and the call reports a trap when the new
count is at least three. -/
def is_edit_trap (d : TrapDetector) (msgId : Nat) : TrapDetector × Bool :=
  let n := d.edit_counts msgId + 1
  (⟨fun i => if i = msgId then n else d.edit_counts i⟩, decide (3 ≤ n))

/-- Outcome of the copier edit handler for one edit event. -/
inductive EditOutcome where
  | edited (text : List Char)
  | blockedEditTrap
  | noMapping
deriving DecidableEq

/-- MultiSessionCopier.process_edited_message: the edit-trap check runs
first (and increments the count); a trapped edit is not propagated; an
edit without a stored mapping is a no-op; otherwise the edited text is
re-stripped and the downstream message is edited. -/
def process_edited_message (d : TrapDetector) (hasMapping : Bool)
    (rules : StripRules) (msgId : Nat) (text : List Char) :
    TrapDetector × EditOutcome :=
  let r := is_edit_trap d msgId
  if r.2 then (r.1, .blockedEditTrap)
  else if !hasMapping then (r.1, .noMapping)
  else (r.1, .edited (strip_custom_header_footer rules text))

/-- Number of iterated is_edit_trap calls for one message on a fresh
detector, returning the detector and the last verdict. -/
def iterEditTrap (msgId : Nat) : Nat → TrapDetector × Bool
  | 0 => (initDetector, false)
  | k + 1 => is_edit_trap (iterEditTrap msgId k).1 msgId

/-- A stored source-to-destination message mapping of the copier. -/
structure MsgMapping where
  original_id : Nat
  sent_id : Nat
  destination : String
deriving DecidableEq

/-- Result of one sink delete call (get_entity plus delete_messages):
either it returns, or it raises. -/
inductive SinkResult where
  | ok
  | raised
deriving DecidableEq

/-- Loop body of process_deleted_message: ids without a mapping are
skipped; for a mapped id the sink delete runs and then the mapping is
removed; an exception from the sink aborts the whole handler, leaving
the remaining ids unprocessed and the current mapping in place. -/
def process_deleted_go (sink : Nat → SinkResult) (userId : String) :
    List Nat → List ((String × Nat) × MsgMapping) → List ((String × Nat) × MsgMapping)
  | [], m => m
  | id :: rest, m =>
    match m.lookup (userId, id) with
    | none => process_deleted_go sink userId rest m
    | some _ =>
      match sink id with
      | .raised => m
      | .ok => process_deleted_go sink userId rest
          (m.filter (fun e => e.1 != (userId, id)))

/-- MultiSessionCopier.process_deleted_message over the deleted ids of
one delete event. -/
def process_deleted_message (sink : Nat → SinkResult) (userId : String)
    (deletedIds : List Nat) (m : List ((String × Nat) × MsgMapping)) :
    List ((String × Nat) × MsgMapping) :=
  process_deleted_go sink userId deletedIds m

end Copier

/-
  Telegram reader (src/telegram_reader/main.py): TrapDetector text
  heuristics, MessageTracker, and the edit handling of
  TelegramMessageReader with config_manager pair status updates.
-/

namespace Reader

/-- Verdict record of TrapDetector.detect_text_traps. -/
structure TrapResult where
  is_trap : Bool
  trap_type : Option String
  confidence : ℚ
  details : List String
deriving DecidableEq

/-- config_manager.is_text_blocked: some blocklist entry (global first,
then pair-specific; both are passed here as one list) is a lower-cased
substring of the lower-cased text. -/
def is_text_blocked (blockPatterns : List (List Char)) (text : List Char) : Bool :=
  blockPatterns.any (fun p => containsList (lowerList p) (lowerList text))

/-- The known trap pattern table of detect_text_traps, in source order:
substring, trap type, confidence. -/
def trapPatternTable : List (List Char × String × ℚ) :=
  [ (chars ("/ *"), "forward_slash_trap", 9/10),
    (chars ("1"), "single_digit_trap", 8/10),
    (chars ("trap"), "explicit_trap", 95/100),
    (chars ("leak"), "leak_warning", 9/10),
    (chars ("copy warning"), "copy_warning", 85/100) ]

/-- TrapDetector.detect_text_traps: empty text is clean; a blocklist
hit is a trap of type blocklist with confidence one; otherwise the
first known pattern contained in the lower-cased stripped text wins;
otherwise a non-empty all-digit stripped text of length at most three
is a suspicious short trap; else clean. -/
def detect_text_traps (blockPatterns : List (List Char)) (text : List Char) :
    TrapResult :=
  if text.isEmpty then ⟨false, none, 0, []⟩
  else if is_text_blocked blockPatterns text then
    ⟨true, some ("blocklist"), 1, ["Text matches blocklist pattern"]⟩
  else
    let tl := pyStrip (lowerList text)
    match trapPatternTable.find? (fun e => containsList e.1 tl) with
    | some e =>
      ⟨true, some e.2.1, e.2.2,
        [String.append ("Detected pattern: ") (String.mk e.1)]⟩
    | none =>
      let st := pyStrip text
      if decide (st.length ≤ 3) && !st.isEmpty && st.all Char.isDigit then
        ⟨true, some ("suspicious_short"), 7/10, ["Very short numeric message"]⟩
      else ⟨false, none, 0, []⟩

/-- MessageTracker: edit counts (dict int to int) and the threshold 3. -/
structure MessageTracker where
  edit_counts : Nat → Nat
  edit_threshold : Nat

/-- A fresh MessageTracker. -/
def initTracker : MessageTracker := ⟨fun _ => 0, 3⟩

/-- MessageTracker.track_edit: increment the count of the message and
report whether the new count strictly exceeds the threshold. -/
def track_edit (t : MessageTracker) (msgId : Nat) : MessageTracker × Bool :=
  let n := t.edit_counts msgId + 1
  (⟨fun i => if i = msgId then n else t.edit_counts i, t.edit_threshold⟩,
    decide (t.edit_threshold < n))

/-- Pair status values of the configuration (spec section three). -/
inductive PairStatus where
  | active
  | paused
  | error
deriving DecidableEq

/-- handle_trap_detection: when the text-trap confidence exceeds eight
tenths the pair is auto-paused; no automatic resume is scheduled on
this path.  Returns the new pair status and the scheduled resume delay
in seconds, if any. -/
def handle_trap_detection (confidence : ℚ) (st : PairStatus) :
    PairStatus × Option Nat :=
  if 8/10 < confidence then (PairStatus.paused, none) else (st, none)

/-- handle_excessive_edits: the pair is paused and an auto_resume_pair
task with a delay of 120 seconds is scheduled. -/
def handle_excessive_edits (st : PairStatus) : PairStatus × Option Nat :=
  (PairStatus.paused, some 120)

/-- auto_resume_pair sets the pair status to active after its delay. -/
def auto_resume_pair (st : PairStatus) : PairStatus := PairStatus.active

/-- State of the reader relevant to one pair: the tracker, the pair
status, and the pending scheduled auto-resume delay. -/
structure ReaderState where
  tracker : MessageTracker
  pairStatus : PairStatus
  scheduledResume : Option Nat

/-- Outcome of handle_message_edit for one edit event. -/
inductive ReaderEditOutcome where
  | forwarded (text : List Char)
  | trapBlocked (ty : Option String)
  | pausedEditStorm
deriving DecidableEq

/-- TelegramMessageReader.handle_message_edit for the text of an edit
event on an active pair: track_edit runs first; when the threshold is
exceeded the pair takes the excessive-edits path (paused, resume
scheduled, nothing propagated); otherwise the event is processed as a
new message: trap detection on the text, auto-pause on a
high-confidence trap, and forwarding when clean. -/
def handle_message_edit (blockPatterns : List (List Char)) (st : ReaderState)
    (msgId : Nat) (text : List Char) : ReaderState × ReaderEditOutcome :=
  let tr := track_edit st.tracker msgId
  if tr.2 then
    let pe := handle_excessive_edits st.pairStatus
    (⟨tr.1, pe.1, pe.2⟩, .pausedEditStorm)
  else
    let r := detect_text_traps blockPatterns text
    if r.is_trap then
      let pt := handle_trap_detection r.confidence st.pairStatus
      (⟨tr.1, pt.1, st.scheduledResume⟩, .trapBlocked r.trap_type)
    else (⟨tr.1, st.pairStatus, st.scheduledResume⟩, .forwarded text)

end Reader

/-
  RateLimiter (src/retry_util.py): sliding-window limiter whose
  acquire prunes recorded call times, sleeps when the window is full,
  and then records the pre-sleep entry time.
-/

namespace RetryUtil

/-- RateLimiter state: configuration and the recorded call times. -/
structure RateLimiter where
  max_calls : Nat
  time_window : ℚ
  calls : List ℚ

/-- Minimum of a non-empty list of times (Python min). -/
def listMin (l : List ℚ) (dflt : ℚ) : ℚ :=
  match l with
  | [] => dflt
  | x :: xs => xs.foldl min x

/-- RateLimiter.acquire at wall-clock time `now`: recorded times at or
before the window cutoff are pruned; when the pruned list is full the
caller sleeps until the window of the oldest recorded time expires;
afterwards the pre-sleep time `now` is appended to the record.  Returns
the new state and the time at which acquire returns (the time at which
the caller issues its call). -/
def acquire (rl : RateLimiter) (now : ℚ) : RateLimiter × ℚ :=
  let pruned := rl.calls.filter (fun t => decide (now - rl.time_window < t))
  let ret :=
    if rl.max_calls ≤ pruned.length then
      let wait := rl.time_window - (now - listMin pruned now)
      if 0 < wait then now + wait else now
    else now
  (⟨rl.max_calls, rl.time_window, pruned ++ [now]⟩, ret)

/-- A sequential caller that loops acquire-then-send: each acquire
starts at the time the previous one returned (sends are instantaneous);
returns the list of issue times. -/
def run_acquires : RateLimiter → ℚ → Nat → List ℚ
  | _, _, 0 => []
  | rl, t, k + 1 =>
    let r := acquire rl t
    r.2 :: run_acquires r.1 r.2 k

end RetryUtil

/-
  Discord bot event handling (src/discord_bot.py AutoForwardXBot):
  on_message with the cleaner, the legacy blocklist and legacy trap
  checks, and the exception path of clean_discord_message.
-/

namespace Bot

/-- clean_discord_message including its exception handler: the
empty-input early return happens before the try block; when some step
inside the try block raises, the handler returns the original
unsanitized text with the trap flag false. -/
def clean_discord_message_exc (raised : Bool) (cs : List Char) :
    List Char × Bool :=
  if (pyStrip cs).isEmpty then ([], false)
  else if raised then (cs, false)
  else Cleaner.clean_discord_message cs

/-- The legacy trap pattern table of detect_trap_patterns. -/
def legacyTrapTable : List (List Char × String) :=
  [ (chars ("/ *"), "forward_slash_trap"),
    (chars ("1"), "single_digit_trap"),
    (chars ("trap"), "explicit_trap"),
    (chars ("leak"), "leak_warning"),
    (chars ("copy warning"), "copy_warning") ]

/-- detect_trap_patterns: first legacy pattern contained in the
lower-cased stripped content. -/
def detect_trap_patterns (content : List Char) : Option String :=
  (legacyTrapTable.find?
    (fun e => containsList e.1 (pyStrip (lowerList content)))).map (fun e => e.2)

/-- What on_message does with an event. -/
inductive ForwardAction where
  | dropped
  | forwarded (content : List Char)
deriving DecidableEq

/-- on_message after pair resolution and content extraction, for a text
event: empty content returns; the cleaner runs (with its exception
handler); trapped events are dropped; cleaned content that is empty or
shorter than three characters after stripping is dropped; the legacy
blocklist and legacy trap checks drop; otherwise the cleaned content is
forwarded downstream. -/
def on_message_model (raised : Bool) (blockPatterns : List (List Char))
    (raw : List Char) : ForwardAction :=
  if raw.isEmpty then .dropped
  else
    let r := clean_discord_message_exc raised raw
    if r.2 then .dropped
    else if r.1.isEmpty || decide ((pyStrip r.1).length < 3) then .dropped
    else if Reader.is_text_blocked blockPatterns r.1 then .dropped
    else if (detect_trap_patterns r.1).isSome then .dropped
    else .forwarded r.1

end Bot

/-
  Concrete inputs and helper lemmas for the claim theorems.  The Rat
  arithmetic operations are irreducible by default; they are unsealed so
  that the kernel can evaluate the rate limiter and confidence values.
-/

unseal Rat.add Rat.sub Rat.mul Rat.inv

/-- The section-eight example scenario input. -/
def scenTxt : List Char := chars ("***SIGNAL***\nBuy BTCUSDT at 45000\nshared by @bot")

/-- The sanitized scenario output expected by the specification. -/
def scenOut : List Char := chars ("Buy BTCUSDT at 45000")

/-- The scenario header pattern caret star-run-of-three any star-run-of-three
dollar, hand-compiled: an anchored match succeeds exactly on lines of
length at least six that start and end with three stars. -/
def scenHeader : Copier.LinePattern :=
  .compiled (chars ("^\\*\x7b3,\x7d.*\\*\x7b3,\x7d$"))
    (fun l => decide (6 ≤ l.length) && listStarts (chars ("***")) l
      && listStarts (chars ("***")) l.reverse)

/-- The scenario footer pattern, a search that reduces to a
case-insensitive substring test on its literal part. -/
def scenFooter : Copier.LinePattern :=
  .compiled (chars ("shared by .*")) (fun l => containsCI (chars ("shared by ")) l)

/-- Strip rules of the scenario: mentions removed, the one header and
the one footer pattern. -/
def scenRules : Copier.StripRules := ⟨true, [scenHeader], [scenFooter]⟩

/-- Counterexample input to cleaner idempotence: the mojibake fire
prefix with a run of three U+00A5.  The first run collapses the spam
run, producing a text that begins with the full four-character mojibake
fire sequence directly followed by a word character; the second run
then matches header pattern two and deletes everything. -/
def mojiCE : List Char := ['ð', 'Ÿ', '”', '¥', '¥', '¥'] ++ chars ("hello")

/-- Counterexample input to stealth idempotence: nested decorative star
wrappers; one pass strips only the outer wrapper pair. -/
def wrapCE : List Char := chars ("*** *** x *** ***")

/-- A plain clean trading text used for fixed-point checks. -/
def buyT : List Char := chars ("Buy BTCUSDT at 45000")

/-- An ordinary multi-word edit text that passes every trap heuristic. -/
def c2Text : List Char := chars ("Updated entry levels for the signal")

/-- Reader state before any edit: fresh tracker, active pair, no
scheduled resume. -/
def c2State0 : Reader.ReaderState :=
  ⟨Reader.initTracker, Reader.PairStatus.active, none⟩

/-- One reader edit event for message seven carrying `c2Text`. -/
def c2Step (st : Reader.ReaderState) :
    Reader.ReaderState × Reader.ReaderEditOutcome :=
  Reader.handle_message_edit [] st 7 c2Text

/-- One copier edit event for message nine carrying `c2Text`, with a
stored mapping and trivial strip rules. -/
def c2CopStep (d : Copier.TrapDetector) :
    Copier.TrapDetector × Copier.EditOutcome :=
  Copier.process_edited_message d true ⟨true, [], []⟩ 9 c2Text

/-- Edit count bookkeeping of the iterated copier edit-trap check. -/
theorem iterEditTrapCount (msgId : Nat) :
    ∀ k : Nat, (Copier.iterEditTrap msgId k).1.edit_counts msgId = k := by
  intro k
  induction k with
  | zero => rfl
  | succ k ih =>
    simp [Copier.iterEditTrap, Copier.is_edit_trap, ih]

/-- Demo user and mapping for the delete-event theorems. -/
def demoUser : String := "u1"

/-- Demo mapping record. -/
def demoMapping : Copier.MsgMapping := ⟨1, 42, "@dest"⟩

/-- Demo mapping store holding the one mapping for message one. -/
def demoMappings : List ((String × Nat) × Copier.MsgMapping) :=
  [((demoUser, 1), demoMapping)]

/-- Looking a key up in a store filtered to exclude that key gives
nothing. -/
theorem lookupFilterNe (key : String × Nat)
    (m : List ((String × Nat) × Copier.MsgMapping)) :
    (m.filter (fun e => e.1 != key)).lookup key = none := by
  induction m with
  | nil => rfl
  | cons e rest ih =>
    obtain ⟨k, v⟩ := e
    by_cases h : k = key
    · simpa [List.filter_cons, h] using ih
    · have hbeq : (key == k) = false := by
        simp [beq_eq_false_iff_ne, Ne.symm h]
      simp only [List.filter_cons]
      simp only [bne_iff_ne, ne_eq, h, not_false_eq_true, if_true]
      simpa [List.lookup, hbeq] using ih

/-- Invalid blocklist pattern and inputs for the robustness claim. -/
def c10Pats : List Copier.LinePattern :=
  [Copier.LinePattern.invalid (chars ("[trap"))]

/-- Strip rules carrying the invalid header pattern. -/
def c10Rules : Copier.StripRules := ⟨true, c10Pats, []⟩

/-- A text whose middle line contains the invalid pattern verbatim. -/
def c10Text : List Char := chars ("keep me\nbad [trap line here\nalso keep")

/-- The middle line of `c10Text`. -/
def c10Line : List Char := chars ("bad [trap line here")

/-
  Claim theorems.
-/

/-- Claim C1 (counterexample): sanitization is not idempotent.  For the
message cleaner, the spam collapse of the first pass creates a text
that the header check of a second pass removes entirely; for the
fingerprint normalizer, one pass over nested decorative wrappers strips
only the outer pair and a second pass strips again.  So
sanitize(sanitize(x)) differs from sanitize(x) on these inputs, for
both the message cleaner and the fingerprint normalizer. -/
theorem c1_idempotence_counterexample :
    (Cleaner.clean_discord_message
        ((Cleaner.clean_discord_message mojiCE).1)).1
      ≠ (Cleaner.clean_discord_message mojiCE).1
    ∧ Stealth.normalize_message_fingerprint
        (Stealth.normalize_message_fingerprint wrapCE)
      ≠ Stealth.normalize_message_fingerprint wrapCE := by decide

/-- Claim C1 (amended): the full cleaning pipelines are not idempotent
in general, but both are idempotent on the sampled example inputs of
the specification: the degenerate slash-star input and the scenario
texts are fixed points of a second run. -/
theorem c1_idempotence_amended :
    (Cleaner.clean_discord_message
        ((Cleaner.clean_discord_message (chars ("/ *"))).1)).1
      = (Cleaner.clean_discord_message (chars ("/ *"))).1
    ∧ (Cleaner.clean_discord_message
        ((Cleaner.clean_discord_message buyT).1)).1
      = (Cleaner.clean_discord_message buyT).1
    ∧ Stealth.normalize_message_fingerprint
        (Stealth.normalize_message_fingerprint scenTxt)
      = Stealth.normalize_message_fingerprint scenTxt := by decide

/-- Claim C2 (counterexample): in the reader, the third edit of a
tracked message does not trigger the edit trap: track_edit fires only
when the count strictly exceeds the threshold three, so edit three is
still forwarded and the pair stays active, contrary to the claim that
edit three triggers edit_trap and pauses the pair. -/
theorem c2_edit_trap_counterexample :
    (c2Step (c2Step (c2Step c2State0).1).1).2
        = Reader.ReaderEditOutcome.forwarded c2Text
    ∧ ((c2Step (c2Step (c2Step c2State0).1).1).1).pairStatus
        = Reader.PairStatus.active := by decide

/-- Claim C2 (amended): the two edit-trap implementations disagree.  In
the copier, is_edit_trap verdicts exactly when the post-increment count
reaches three, so edits one and two propagate and edit three is blocked
(no pause happens there); in the reader, track_edit fires only above
the threshold, so edits one to three are forwarded and the fourth edit
pauses the pair with a scheduled 120-second auto-resume. -/
theorem c2_edit_trap_amended :
    (∀ k : Nat, (Copier.iterEditTrap 9 (k + 1)).2 = decide (3 ≤ k + 1))
    ∧ ((c2CopStep Copier.initDetector).2 = Copier.EditOutcome.edited c2Text
      ∧ (c2CopStep (c2CopStep Copier.initDetector).1).2
          = Copier.EditOutcome.edited c2Text
      ∧ (c2CopStep (c2CopStep (c2CopStep Copier.initDetector).1).1).2
          = Copier.EditOutcome.blockedEditTrap)
    ∧ ((c2Step (c2Step (c2Step (c2Step c2State0).1).1).1).2
          = Reader.ReaderEditOutcome.pausedEditStorm
      ∧ ((c2Step (c2Step (c2Step (c2Step c2State0).1).1).1).1).pairStatus
          = Reader.PairStatus.paused
      ∧ ((c2Step (c2Step (c2Step (c2Step c2State0).1).1).1).1).scheduledResume
          = some 120) := by
  refine ⟨?_, by decide, by decide⟩
  intro k
  simp [Copier.iterEditTrap, Copier.is_edit_trap, iterEditTrapCount 9 k]

/-- Claim C3 (code bug): the rate limiter records the pre-sleep entry
time instead of the post-wait issue time, so a sequential caller with
max_calls two and a sixty-second window issues calls at times zero,
zero, sixty, sixty and sixty: three issued calls fall inside the
half-open window from zero exclusive to sixty inclusive, exceeding
max_calls.  The spec invariant of at most N issued calls per rolling
window fails on this trace (acquire still never rejects: every call in
the trace is issued). -/
theorem c3_rate_limiter_failing_trace :
    RetryUtil.run_acquires ⟨2, 60, []⟩ 0 5 = [0, 0, 60, 60, 60]
    ∧ (RetryUtil.run_acquires ⟨2, 60, []⟩ 0 5).countP
        (fun x => decide (0 < x) && !decide (60 < x)) = 3
    ∧ (⟨2, 60, []⟩ : RetryUtil.RateLimiter).max_calls
        < (RetryUtil.run_acquires ⟨2, 60, []⟩ 0 5).countP
            (fun x => decide (0 < x) && !decide (60 < x)) := by decide

/-- Claim C4 (counterexample): when an exception is raised inside the
sanitization steps, the event is not dropped: the cleaner returns the
original unsanitized text unflagged and on_message forwards it
downstream. -/
theorem c4_fail_open_counterexample :
    Bot.on_message_model true [] (chars ("hello world"))
      = Bot.ForwardAction.forwarded (chars ("hello world")) := by decide

/-- Claim C4 (amended): the exception handler of clean_discord_message
is fail-open, not fail-safe: on an exception the cleaner returns the
original text with the trap flag false, and whatever on_message then
forwards is exactly the original unsanitized content (it is dropped
only when the original fails the remaining length, blocklist or legacy
trap checks). -/
theorem c4_fail_open_amended :
    (∀ raw : List Char, (pyStrip raw).isEmpty = false →
      Bot.clean_discord_message_exc true raw = (raw, false))
    ∧ (∀ (bl : List (List Char)) (raw y : List Char),
        Bot.on_message_model true bl raw = Bot.ForwardAction.forwarded y →
          y = raw) := by
  constructor
  · intro raw h
    simp [Bot.clean_discord_message_exc, h]
  · intro bl raw y h
    by_cases h0 : raw.isEmpty = true
    · simp [Bot.on_message_model, h0] at h
    · by_cases h1 : (pyStrip raw).isEmpty = true
      · simp [Bot.on_message_model, Bot.clean_discord_message_exc, h0, h1] at h
      · simp only [Bot.on_message_model, Bot.clean_discord_message_exc,
          h0, h1, Bool.false_eq_true, if_false, if_true] at h
        split_ifs at h
        all_goals simp_all

/-- Claim C4 witness. -/
theorem c4_fail_open_witness :
    Bot.clean_discord_message_exc true (chars ("hi there")) = (chars ("hi there"), false)
    ∧ chars ("hello world") = chars ("hello world") :=
  ⟨c4_fail_open_amended.1 (chars ("hi there")) (by decide),
    c4_fail_open_amended.2 [] (chars ("hello world")) (chars ("hello world")) (by decide)⟩

/-- Claim C5 (counterexample): when the sink delete raises, the copier
delete handler aborts and the mapping is not removed: the key is still
present afterwards, contrary to the claim that the mapping is removed
unconditionally regardless of the delete outcome. -/
theorem c5_delete_mapping_counterexample :
    Copier.process_deleted_message (fun _ => Copier.SinkResult.raised)
        demoUser [1] demoMappings = demoMappings
    ∧ (Copier.process_deleted_message (fun _ => Copier.SinkResult.raised)
        demoUser [1] demoMappings).lookup (demoUser, 1) = some demoMapping := by
  decide

/-- Claim C5 (amended): for a delete event with a live mapping, the
mapping is removed exactly when the sink delete call returns; when the
sink raises, the handler aborts and the mapping is left intact. -/
theorem c5_delete_mapping_amended :
    ∀ (sink : Nat → Copier.SinkResult) (u : String) (id : Nat)
      (m : List ((String × Nat) × Copier.MsgMapping)) (v : Copier.MsgMapping),
      m.lookup (u, id) = some v →
        (Copier.process_deleted_message sink u [id] m).lookup (u, id)
          = (match sink id with
             | Copier.SinkResult.ok => none
             | Copier.SinkResult.raised => some v) := by
  intro sink u id m v h
  cases hs : sink id with
  | raised =>
    simp [Copier.process_deleted_message, Copier.process_deleted_go, h, hs]
  | ok =>
    simp [Copier.process_deleted_message, Copier.process_deleted_go, h, hs,
      lookupFilterNe]

/-- Claim C5 witness. -/
theorem c5_delete_mapping_witness :
    (Copier.process_deleted_message (fun _ => Copier.SinkResult.ok)
      demoUser [1] demoMappings).lookup (demoUser, 1) = none := by
  have h := c5_delete_mapping_amended (fun _ => Copier.SinkResult.ok)
    demoUser 1 demoMappings demoMapping (by decide)
  simpa using h

/-- Claim C6: the scenario input with the scenario header and footer
patterns strips to exactly the expected payload, and the verdict on the
stripped text is clean for both the reader heuristics and the copier
blocklist check. -/
theorem c6_scenario_clean :
    Copier.strip_custom_header_footer scenRules scenTxt = scenOut
    ∧ (Reader.detect_text_traps [] scenOut).is_trap = false
    ∧ Copier.is_text_trap [] scenOut = false := by decide

/-- Claim C7 (counterexample): the degenerate slash-star input is
trapped by the heuristic pattern table with reason forward_slash_trap,
not content_too_short, and the message cleaner does not flag it at all:
its sanitized output is the unchanged three-character text, which is
not below the too-short threshold. -/
theorem c7_degenerate_counterexample :
    (Reader.detect_text_traps [] (chars ("/ *"))).is_trap = true
    ∧ (Reader.detect_text_traps [] (chars ("/ *"))).trap_type
        ≠ some ("content_too_short")
    ∧ Cleaner.clean_discord_message (chars ("/ *"))
        = (chars ("/ *"), false) := by decide

/-- Claim C7 (amended): the slash-star input yields a trap verdict with
reason forward_slash_trap and confidence nine tenths from the reader
heuristics, while the discord cleaner leaves the three-character text
unchanged and unflagged (the too-short threshold is strictly below
three characters). -/
theorem c7_degenerate_amended :
    Reader.detect_text_traps [] (chars ("/ *"))
      = ⟨true, some ("forward_slash_trap"), 9/10, ["Detected pattern: / *"]⟩
    ∧ Cleaner.clean_discord_message (chars ("/ *")) = (chars ("/ *"), false)
    ∧ (chars ("/ *")).length = 3 := by decide

/-- Claim C8 (counterexample): an auto-pause caused by trap detection
schedules no automatic resume: handle_trap_detection pauses the pair
and returns no scheduled resume delay, contrary to the claim that every
trap or edit-storm auto-pause schedules a 120-second resume. -/
theorem c8_auto_resume_counterexample :
    Reader.handle_trap_detection (9/10) Reader.PairStatus.active
      = (Reader.PairStatus.paused, none) := by decide

/-- Claim C8 (amended): only the edit-storm path schedules the
120-second auto-resume, which then sets the pair active; trap-detection
auto-pauses (any confidence above eight tenths) schedule no resume. -/
theorem c8_auto_resume_amended :
    (∀ st, Reader.handle_excessive_edits st = (Reader.PairStatus.paused, some 120))
    ∧ (∀ st, Reader.auto_resume_pair st = Reader.PairStatus.active)
    ∧ (∀ (c : ℚ) (st : Reader.PairStatus), 8/10 < c →
        Reader.handle_trap_detection c st = (Reader.PairStatus.paused, none)) := by
  refine ⟨fun st => rfl, fun st => rfl, ?_⟩
  intro c st h
  simp [Reader.handle_trap_detection, h]

/-- Claim C8 witness. -/
theorem c8_auto_resume_witness :
    Reader.handle_excessive_edits Reader.PairStatus.active
      = (Reader.PairStatus.paused, some 120)
    ∧ Reader.auto_resume_pair Reader.PairStatus.paused = Reader.PairStatus.active
    ∧ Reader.handle_trap_detection (9/10) Reader.PairStatus.active
      = (Reader.PairStatus.paused, none) :=
  ⟨c8_auto_resume_amended.1 Reader.PairStatus.active,
    c8_auto_resume_amended.2.1 Reader.PairStatus.paused,
    c8_auto_resume_amended.2.2 (9/10) Reader.PairStatus.active (by decide)⟩

/-- Claim C9: a None, empty or whitespace-only input to
clean_discord_message returns the empty text unflagged, and every other
input whose cleaned output is shorter than three characters is flagged
as a trap (the content-too-short validation). -/
theorem c9_empty_input_never_trap :
    Cleaner.clean_discord_message_opt none = ([], false)
    ∧ (∀ s : List Char, (pyStrip s).isEmpty = true →
        Cleaner.clean_discord_message s = ([], false))
    ∧ (∀ s : List Char, (pyStrip s).isEmpty = false →
        (Cleaner.clean_discord_message s).1.length < 3 →
          (Cleaner.clean_discord_message s).2 = true) := by
  refine ⟨rfl, ?_, ?_⟩
  · intro s h
    simp [Cleaner.clean_discord_message, h]
  · intro s h hlen
    unfold Cleaner.clean_discord_message at hlen ⊢
    simp only [h, Bool.false_eq_true, if_false] at hlen ⊢
    by_cases h4 : 4000 < (Cleaner.clean_pipeline s).length
    · exfalso
      simp only [h4, if_true, List.length_append, List.length_take] at hlen
      simp [chars] at hlen
    · simp only [h4, if_false] at hlen
      simp [hlen]

/-- Claim C9 witness. -/
theorem c9_empty_input_witness :
    Cleaner.clean_discord_message (chars ("  ")) = ([], false)
    ∧ (Cleaner.clean_discord_message (chars ("ab"))).2 = true :=
  ⟨c9_empty_input_never_trap.2.1 (chars ("  ")) (by decide),
    c9_empty_input_never_trap.2.2 (chars ("ab")) (by decide) (by decide)⟩

/-- Claim C10: malformed patterns never abort trap checking or
stripping, which fall back to case-insensitive literal substring
matching: a blocklist pattern that is not a valid regex still traps any
non-empty text containing it verbatim, and a header pattern that is not
a valid regex still causes every non-blank line containing it verbatim
to be dropped by strip_custom_header_footer. -/
theorem c10_invalid_pattern_fallback :
    (∀ (pats : List Copier.LinePattern) (text raw : List Char),
      Copier.LinePattern.invalid raw ∈ pats →
        text.isEmpty = false →
          containsList (lowerList raw) (pyStrip (lowerList text)) = true →
            Copier.is_text_trap pats text = true)
    ∧ (∀ (rules : Copier.StripRules) (text raw l : List Char),
        Copier.LinePattern.invalid raw ∈ rules.headerPatterns →
          l ∈ splitOnNl text →
            containsCI raw l = true →
              (pyStrip l).isEmpty = false →
                l ∉ Copier.kept_lines rules text) := by
  constructor
  · intro pats text raw hmem hne hsub
    unfold Copier.is_text_trap
    simp only [hne, Bool.false_eq_true, if_false]
    refine List.any_eq_true.2 ⟨Copier.LinePattern.invalid raw, hmem, ?_⟩
    simpa using hsub
  · intro rules text raw l hmem hline hcont hnb hk
    have hskip : Copier.line_skipped rules l = true := by
      have hhit : rules.headerPatterns.any (Copier.patternHit l) = true :=
        List.any_eq_true.2
          ⟨Copier.LinePattern.invalid raw, hmem,
            by simpa [Copier.patternHit] using hcont⟩
      simp [Copier.line_skipped, hhit]
    have hpred := (List.mem_filter.1 hk).2
    simp [hnb, hskip] at hpred

/-- Claim C10 witness. -/
theorem c10_invalid_pattern_witness :
    Copier.is_text_trap c10Pats (chars ("contains [trap here")) = true
    ∧ c10Line ∉ Copier.kept_lines c10Rules c10Text :=
  ⟨c10_invalid_pattern_fallback.1 c10Pats (chars ("contains [trap here"))
      (chars ("[trap")) (List.Mem.head _) (by decide) (by decide),
    c10_invalid_pattern_fallback.2 c10Rules c10Text (chars ("[trap")) c10Line
      (List.Mem.head _) (by decide) (by decide) (by decide)⟩

end AutoForwardX
